import Mathlib

/-!
Verification development for the speech-generation backend
(backend/tts_service.py, backend/models.py, backend/session_service.py).

The Python source is shallowly embedded: bytes are lists of `Nat`,
fallible operations return `Except`/`Option`, the external model stream
is a list of response chunks, and the filesystem effect of one
invocation is the list of files it writes.  Python-specific behaviours
(truthiness of empty strings and empty byte strings, dict `.get`
defaults, `str.split` with maxsplit 1, pydantic dropping keyword
arguments that are not declared fields) are modelled explicitly by
small helper functions.  Character-level string operations are defined
structurally over `List Char` so that all definitions evaluate inside
the kernel.
-/

/-- Python truthiness-based `or` on an optional string, as in
`mime_type or "audio/L16;rate=24000"` (tts_service.py line 171) and
`request.persona_id or "none"` (line 189): `None` and the empty string
both fall through to the default. -/
def pyOrStr (o : Option String) (d : String) : String :=
  match o with
  | some s => if s = "" then d else s
  | none => d

/-- Python truthiness-based `or` of two optional strings, as in
`session_id or get_active_session_id()` (tts_service.py line 214). -/
def pyOrOpt (a b : Option String) : Option String :=
  match a with
  | some s => if s = "" then b else some s
  | none => b

/-- Split a character list at every occurrence of the separator
character, keeping empty segments, like Python `str.split(sep)` for a
one-character separator. -/
def splitOnChar (c : Char) : List Char → List (List Char)
  | [] => [[]]
  | a :: rest =>
    let r := splitOnChar c rest
    if a = c then [] :: r
    else
      match r with
      | h :: t => (a :: h) :: t
      | [] => [[a]]

/-- Python `s.split(c, 1)` for a one-character separator: `none` when
the separator is absent (indexing the second element would raise),
otherwise the text before the first separator and everything after
it. -/
def pySplitOnceChar (c : Char) : List Char → Option (List Char × List Char)
  | [] => none
  | a :: rest =>
    if a = c then some ([], rest)
    else
      match pySplitOnceChar c rest with
      | some pr => some (a :: pr.1, pr.2)
      | none => none

/-- Python `str.strip()`: drop whitespace from both ends. -/
def trimChars (l : List Char) : List Char :=
  ((l.dropWhile Char.isWhitespace).reverse.dropWhile Char.isWhitespace).reverse

/-- Python `str.lower()` for the ASCII text handled here. -/
def lowerChars (l : List Char) : List Char :=
  l.map Char.toLower

/-- Decimal digit-string value, used to model Python `int()`. -/
def digitsToNat : List Char → Option Nat
  | [] => none
  | l =>
    if l.all Char.isDigit then
      some (l.foldl (fun acc c => acc * 10 + (c.toNat - 48)) 0)
    else none

/-- Python `int(s)` on the inputs relevant here: surrounding whitespace
is stripped, an optional sign is accepted, and the remainder must be a
nonempty digit string (underscore digit grouping is not modelled). -/
def pyInt (l : List Char) : Option Int :=
  let t := trimChars l
  let signed : Int × List Char :=
    match t with
    | '-' :: rest => (-1, rest)
    | '+' :: rest => (1, rest)
    | _ => (1, t)
  match digitsToNat signed.2 with
  | some n => some (signed.1 * n)
  | none => none

/-- The parameters extracted from an audio MIME descriptor
(tts_service.py `parse_audio_mime_type`, lines 23-43). -/
structure AudioParams where
  bits_per_sample : Int
  rate : Int
deriving DecidableEq

/-- tts_service.py lines 23-43: split the descriptor on semicolons and
fold over the parts; a part whose lowercase form begins with `rate=`
updates the rate, otherwise a part beginning with `audio/L` updates the
bit depth; unparseable numbers are silently ignored.  Defaults are
16 bits and 24000 Hz. -/
def parse_audio_mime_type (mime_type : String) : AudioParams :=
  (splitOnChar ';' mime_type.data).foldl
    (fun acc part =>
      let param := trimChars part
      if "rate=".data.isPrefixOf (lowerChars param) then
        match pySplitOnceChar '=' param with
        | some pr =>
          match pyInt pr.2 with
          | some r => { acc with rate := r }
          | none => acc
        | none => acc
      else if "audio/L".data.isPrefixOf param then
        match pySplitOnceChar 'L' param with
        | some pr =>
          match pyInt pr.2 with
          | some b => { acc with bits_per_sample := b }
          | none => acc
        | none => acc
      else acc)
    { bits_per_sample := 16, rate := 24000 }

/-- Two little-endian bytes of a natural number below 2 ^ 16. -/
def le16 (n : Nat) : List Nat :=
  [n % 256, n / 256 % 256]

/-- Four little-endian bytes of a natural number below 2 ^ 32. -/
def le32 (n : Nat) : List Nat :=
  [n % 256, n / 256 % 256, n / 65536 % 256, n / 16777216 % 256]

/-- `struct.pack` of a `<H` field: fails unless the value is in the
unsigned 16-bit range. -/
def packU16 (v : Int) : Option (List Nat) :=
  if 0 ≤ v ∧ v < 65536 then some (le16 v.toNat) else none

/-- `struct.pack` of a `<I` field: fails unless the value is in the
unsigned 32-bit range. -/
def packU32 (v : Int) : Option (List Nat) :=
  if 0 ≤ v ∧ v < 4294967296 then some (le32 v.toNat) else none

def RIFF_MAGIC : List Nat := [82, 73, 70, 70]
def WAVE_MAGIC : List Nat := [87, 65, 86, 69]
def FMT_MAGIC : List Nat := [102, 109, 116, 32]
def DATA_MAGIC : List Nat := [100, 97, 116, 97]

/-- Assemble the `struct.pack` output from the six packed fields: the
whole pack raises (`none`) when any field is out of range, and
otherwise lays the fields out in the fixed header order followed by the
raw payload. -/
def packWav (audio_data : List Nat) :
    Option (List Nat) → Option (List Nat) → Option (List Nat) → Option (List Nat) →
      Option (List Nat) → Option (List Nat) → Option (List Nat)
  | some bcs, some brate, some bbr, some bba, some bbits, some bds =>
    some (RIFF_MAGIC ++ bcs ++ WAVE_MAGIC ++ FMT_MAGIC ++ le32 16 ++ le16 1 ++
      le16 1 ++ brate ++ bbr ++ bba ++ bbits ++ DATA_MAGIC ++ bds ++ audio_data)
  | _, _, _, _, _, _ => none

/-- tts_service.py `convert_to_wav`, lines 46-74: parse the descriptor,
compute the derived header fields with Python floor division, and pack
the 44-byte RIFF/WAVE header followed by the raw payload.  `none`
models `struct.error` for a field outside its range. -/
def convert_to_wav (audio_data : List Nat) (mime_type : String) : Option (List Nat) :=
  let params := parse_audio_mime_type mime_type
  let bits_per_sample := params.bits_per_sample
  let sample_rate := params.rate
  let num_channels : Int := 1
  let data_size : Int := (audio_data.length : Int)
  let bytes_per_sample := Int.fdiv bits_per_sample 8
  let block_align := num_channels * bytes_per_sample
  let byte_rate := sample_rate * block_align
  let chunk_size := 36 + data_size
  packWav audio_data (packU32 chunk_size) (packU32 sample_rate) (packU32 byte_rate)
    (packU16 block_align) (packU16 bits_per_sample) (packU32 data_size)

/-- Read four little-endian bytes as a natural number; missing bytes
read as zero. -/
def readLE32 : List Nat → Nat
  | b0 :: b1 :: b2 :: b3 :: _ => b0 + 256 * b1 + 65536 * b2 + 16777216 * b3
  | _ => 0

-- Concrete evaluations of the descriptor parser and the encoder.
example : parse_audio_mime_type "audio/L16;rate=24000" = { bits_per_sample := 16, rate := 24000 } := by decide
example : parse_audio_mime_type "" = { bits_per_sample := 16, rate := 24000 } := by decide
example : parse_audio_mime_type "audio/L8;rate=8000" = { bits_per_sample := 8, rate := 8000 } := by decide
example : parse_audio_mime_type "bogus; RATE=11025" = { bits_per_sample := 16, rate := 11025 } := by decide
example : parse_audio_mime_type "audio/L24;rate=x" = { bits_per_sample := 24, rate := 24000 } := by decide
example :
    convert_to_wav [1, 2] "" =
      some (RIFF_MAGIC ++ le32 38 ++ WAVE_MAGIC ++ FMT_MAGIC ++ le32 16 ++ le16 1 ++
        le16 1 ++ le32 24000 ++ le32 48000 ++ le16 2 ++ le16 16 ++ DATA_MAGIC ++ le32 2 ++ [1, 2]) := by
  decide

namespace Genai

/-- Inline audio blob of a response part (google.genai `Blob`): the
byte payload and the MIME descriptor, each possibly `None`. -/
structure Blob where
  data : Option (List Nat)
  mime_type : Option String
deriving DecidableEq

/-- A response part, carrying an optional inline audio blob. -/
structure Part where
  inline_data : Option Blob
deriving DecidableEq

/-- Candidate content, carrying an optional list of parts. -/
structure Content where
  parts : Option (List Part)
deriving DecidableEq

/-- A response candidate, carrying optional content. -/
structure Candidate where
  content : Option Content
deriving DecidableEq

/-- One chunk of the streaming response, carrying an optional list of
candidates. -/
structure Chunk where
  candidates : Option (List Candidate)
deriving DecidableEq

end Genai

/-- One iteration of the stream-consumption loop (tts_service.py lines
146-162).  The accumulator is the list of collected payloads plus the
captured MIME descriptor.  A chunk whose candidates, content or parts
are `None` is skipped; indexing `[0]` into a present but empty list
raises `IndexError`, modelled as `Except.error` with the CPython
message; a part whose inline blob or byte payload is falsy (absent or
empty) is skipped; otherwise the payload is appended and the MIME
descriptor is captured only while the accumulator still holds `none`. -/
def consumeChunk (acc : List (List Nat) × Option String) (chunk : Genai.Chunk) :
    Except String (List (List Nat) × Option String) :=
  match chunk.candidates with
  | none => .ok acc
  | some [] => .error "list index out of range"
  | some (c0 :: _) =>
    match c0.content with
    | none => .ok acc
    | some content =>
      match content.parts with
      | none => .ok acc
      | some [] => .error "list index out of range"
      | some (p0 :: _) =>
        match p0.inline_data with
        | none => .ok acc
        | some blob =>
          match blob.data with
          | none => .ok acc
          | some [] => .ok acc
          | some d =>
            .ok (acc.1 ++ [d],
              match acc.2 with
              | none => blob.mime_type
              | some m => some m)

/-- The whole stream-consumption loop, chunk by chunk, stopping at the
first raised exception (which the surrounding `try` of generate_speech
converts into a failure result). -/
def runStreamAux (acc : List (List Nat) × Option String) :
    List Genai.Chunk → Except String (List (List Nat) × Option String)
  | [] => .ok acc
  | c :: rest =>
    match consumeChunk acc c with
    | .error e => .error e
    | .ok acc2 => runStreamAux acc2 rest

/-- Stream consumption from the initial state: no payloads, no
captured descriptor (tts_service.py lines 143-162). -/
def runStream (chunks : List Genai.Chunk) :
    Except String (List (List Nat) × Option String) :=
  runStreamAux ([], none) chunks

/-- The inline audio payload a chunk contributes, when truthy: first
candidate, first part, a present and nonempty byte string.  Used to
state what the loop accumulates. -/
def chunkPayload (c : Genai.Chunk) : Option (List Nat) :=
  match c.candidates with
  | some (c0 :: _) =>
    match c0.content with
    | some content =>
      match content.parts with
      | some (p0 :: _) =>
        match p0.inline_data with
        | some blob =>
          match blob.data with
          | some (b :: bs) => some (b :: bs)
          | _ => none
        | none => none
      | _ => none
    | none => none
  | _ => none

/-- The MIME descriptor on the first candidate and part of a chunk,
when that path exists. -/
def chunkMime (c : Genai.Chunk) : Option String :=
  match c.candidates with
  | some (c0 :: _) =>
    match c0.content with
    | some content =>
      match content.parts with
      | some (p0 :: _) =>
        match p0.inline_data with
        | some blob => blob.mime_type
        | none => none
      | _ => none
    | none => none
  | _ => none

/-- The descriptor of the first audio-bearing chunk that supplies a
non-null descriptor, the value the loop leaves in its MIME
accumulator. -/
def firstAudioMime : List Genai.Chunk → Option String
  | [] => none
  | c :: rest =>
    match chunkPayload c with
    | some _ =>
      match chunkMime c with
      | some m => some m
      | none => firstAudioMime rest
    | none => firstAudioMime rest

/-- A chunk the loop handles without raising: any present candidate or
part list is nonempty. -/
def WellFormedChunk (c : Genai.Chunk) : Bool :=
  match c.candidates with
  | some [] => false
  | some (c0 :: _) =>
    match c0.content with
    | some content =>
      match content.parts with
      | some [] => false
      | _ => true
    | none => true
  | none => true

/-- The supported model variants (models.py lines 5-7). -/
inductive GeminiModel
  | FLASH
  | PRO
deriving DecidableEq

/-- The wire identifier of a model variant (models.py lines 6-7). -/
def GeminiModel.value : GeminiModel → String
  | .FLASH => "gemini-2.5-flash-preview-tts"
  | .PRO => "gemini-2.5-pro-preview-tts"

/-- `GeminiModel(model)` on a raw string: the enum member whose value
matches, or a `ValueError` (`none`) otherwise. -/
def GeminiModel.ofString (s : String) : Option GeminiModel :=
  if s = "gemini-2.5-flash-preview-tts" then some .FLASH
  else if s = "gemini-2.5-pro-preview-tts" then some .PRO
  else none

/-- A persona record as stored in the catalog: a dictionary whose keys
may each be absent, read with `.get` defaults in the source. -/
structure Persona where
  name : Option String := none
  local_name : Option String := none
  archetype : Option String := none
  traits : Option String := none
  tone_instructions : Option String := none
  recommended_voice : Option String := none
  is_custom : Option Bool := none
deriving DecidableEq

/-- models.py lines 9-13: the declared fields of `GenerateRequest`.
There is no tone-instruction override field. -/
structure GenerateRequest where
  voice : String
  text : String
  persona_id : Option String := none
  model : GeminiModel := .FLASH
deriving DecidableEq

/-- models.py lines 15-20: the declared fields of `GenerateResponse`.
`duration_seconds` is a float field never populated by any code path,
so its payload type is abstracted to `Unit`.  There is no session_id
field. -/
structure GenerateResponse where
  success : Bool
  file_path : Option String := none
  metadata_path : Option String := none
  duration_seconds : Option Unit := none
  error : Option String := none
deriving DecidableEq

/-- The generation-request shape a client may send over HTTP (spec
section 6: voice, text, optional persona_id, optional
tone_instructions, model). -/
structure RequestPayload where
  voice : String
  text : String
  persona_id : Option String := none
  tone_instructions : Option String := none
  model : GeminiModel := .FLASH
deriving DecidableEq

/-- Pydantic validation of an incoming payload against
`GenerateRequest` (models.py lines 9-13): only the declared fields are
kept; with the default `extra="ignore"` configuration an undeclared
`tone_instructions` entry is silently dropped. -/
def parseGenerateRequest (p : RequestPayload) : GenerateRequest :=
  { voice := p.voice, text := p.text, persona_id := p.persona_id, model := p.model }

/-- tts_service.py lines 112-113: `request.persona_id and
request.persona_id in personas` followed by the dictionary lookup.  An
absent or empty identifier is falsy; an unknown identifier resolves to
nothing.  The catalog is the merged result of `get_all_personas`
(built-in entries updated by custom ones), modelled as an association
list. -/
def resolvePersona (personas : List (String × Persona)) (persona_id : Option String) :
    Option Persona :=
  match persona_id with
  | some pid => if pid = "" then none else personas.lookup pid
  | none => none

/-- tts_service.py lines 110-114: the persona display name, starting
from the literal "default" and replaced by
`persona_data.get("name", request.persona_id)` when the persona
resolves. -/
def personaNameFor (personas : List (String × Persona)) (persona_id : Option String) : String :=
  match persona_id, resolvePersona personas persona_id with
  | some pid, some p => p.name.getD pid
  | _, _ => "default"

/-- tts_service.py lines 108-117: the prompt starts as the request
text; when the persona resolves and its tone instructions are truthy
(present and nonempty) the prompt becomes the tone template. -/
def promptFor (personas : List (String × Persona)) (persona_id : Option String)
    (text : String) : String :=
  match resolvePersona personas persona_id with
  | some p =>
    let tone := p.tone_instructions.getD ""
    if tone = "" then text else "Read aloud in " ++ tone ++ "\n\n" ++ text
  | none => text

/-- Python `f"{b}"` on a bool. -/
def boolStr : Bool → String
  | true => "True"
  | false => "False"

/-- tts_service.py lines 187-208: the sidecar metadata lines, in fixed
order, with the persona block present exactly when the persona
resolved, and `generated_at` last, carrying the same timestamp string
used for the base filename. -/
def metadataLines (req : GenerateRequest) (persona_data : Option Persona)
    (persona_name timestamp : String) : List String :=
  ["voice: " ++ req.voice,
   "persona_id: " ++ pyOrStr req.persona_id "none",
   "persona_name: " ++ persona_name]
  ++ (match persona_data with
      | some p =>
        ["local_name: " ++ p.local_name.getD "",
         "archetype: " ++ p.archetype.getD "",
         "traits: " ++ p.traits.getD "",
         "tone_instructions: " ++ p.tone_instructions.getD "",
         "recommended_voice: " ++ p.recommended_voice.getD "",
         "is_custom: " ++ boolStr (p.is_custom.getD false)]
      | none => [])
  ++ ["model: " ++ req.model.value,
      "text: " ++ req.text,
      "generated_at: " ++ timestamp]

/-- Python `str.replace(" ", "_")`: every space becomes an
underscore (tts_service.py line 178). -/
def replaceSpaces (s : String) : String :=
  String.mk (s.data.map (fun c => if c = ' ' then '_' else c))

/-- The content of a file written by one invocation. -/
inductive FileData
  | audioFile (bytes : List Nat)
  | textFile (content : String)
deriving DecidableEq

/-- The environment one `generate_speech` invocation runs in: the
chunks the external model streams back, the merged persona catalog,
the timestamp `datetime.now().strftime` produces at line 177, the
process-wide active session, and the outcome of each side effect that
can raise (file writes, session update), `some msg` meaning the
operation raises with that message. -/
structure Env where
  chunks : List Genai.Chunk
  personas : List (String × Persona)
  timestamp : String
  activeSessionId : Option String := none
  audioWriteError : Option String := none
  metaWriteError : Option String := none
  sessionAddError : Option String := none
deriving DecidableEq

/-- A failure result (tts_service.py lines 165 and 226). -/
def mkFailure (e : String) : GenerateResponse :=
  { success := false, error := some e }

/-- The pydantic constructor call at tts_service.py lines 218-223.
models.py declares no session_id field on `GenerateResponse`, and
pydantic with its default `extra="ignore"` configuration silently
discards the unknown keyword, so the session argument is dropped. -/
def mkSuccessResponse (file_path metadata_path : String) (session_id : Option String) :
    GenerateResponse :=
  { success := true, file_path := some file_path, metadata_path := some metadata_path,
    duration_seconds := none, error := none }

/-- tts_service.py lines 173-223: the write phase of a generation that
produced WAV bytes.  Returns the response and the files this
invocation leaves on disk; a raising write contributes its exception
message through the surrounding `try` and leaves the files already
written. -/
def writePhase (env : Env) (req : GenerateRequest) (session_id : Option String)
    (persona_data : Option Persona) (persona_name : String) (wav_data : List Nat) :
    GenerateResponse × List (String × FileData) :=
  let base := env.timestamp ++ "_" ++ req.voice ++ "_" ++ replaceSpaces persona_name
  match env.audioWriteError with
  | some e => (mkFailure e, [])
  | none =>
    match env.metaWriteError with
    | some e => (mkFailure e, [(base ++ ".wav", .audioFile wav_data)])
    | none =>
      let fs := [(base ++ ".wav", FileData.audioFile wav_data),
                 (base ++ ".txt", FileData.textFile
                   (String.intercalate "\n"
                     (metadataLines req persona_data persona_name env.timestamp)))]
      match pyOrOpt session_id env.activeSessionId with
      | some s =>
        match env.sessionAddError with
        | some e => (mkFailure e, fs)
        | none => (mkSuccessResponse (base ++ ".wav") (base ++ ".txt") (some s), fs)
      | none => (mkSuccessResponse (base ++ ".wav") (base ++ ".txt") none, fs)

/-- Dispatch on the outcome of the WAV encoding: a `struct.error`
becomes a failure result, otherwise the write phase runs. -/
def encodeResult (env : Env) (req : GenerateRequest) (session_id : Option String) :
    Option (List Nat) → GenerateResponse × List (String × FileData)
  | none => (mkFailure "struct.error: argument out of range", [])
  | some wav_data =>
    writePhase env req session_id (resolvePersona env.personas req.persona_id)
      (personaNameFor env.personas req.persona_id) wav_data

/-- tts_service.py lines 167-223: the tail of generate_speech once the
stream produced payloads; encode the WAV container with the captured
or default descriptor and run the write phase. -/
def encodePhase (env : Env) (req : GenerateRequest) (session_id : Option String)
    (audio_chunks : List (List Nat)) (mime : Option String) :
    GenerateResponse × List (String × FileData) :=
  encodeResult env req session_id
    (convert_to_wav audio_chunks.flatten (pyOrStr mime "audio/L16;rate=24000"))

/-- tts_service.py `generate_speech`, lines 101-226: resolve the
persona, drain the stream, fail when no audio arrived, encode and
write.  Every exception surfaces as a failure result; the second
component is the list of files the invocation leaves on disk. -/
def generate_speech (env : Env) (req : GenerateRequest) (session_id : Option String) :
    GenerateResponse × List (String × FileData) :=
  match runStream env.chunks with
  | .error e => (mkFailure e, [])
  | .ok (audio_chunks, mime) =>
    if audio_chunks.isEmpty then (mkFailure "No audio data received", [])
    else encodePhase env req session_id audio_chunks mime

/-- tts_service.py `generate_batch`, lines 229-250: convert the model
string (a `ValueError` propagates out of `asyncio.gather`), build one
request per voice and run `generate_speech` for each.  `asyncio.gather`
returns the per-task results in task order; each task runs in its own
environment `envs i` (its own stream and write outcomes). -/
def generate_batch (envs : Nat → Env) (voices : List String) (text : String)
    (persona_id : Option String) (model : String) (session_id : Option String) :
    Except String (List GenerateResponse) :=
  match GeminiModel.ofString model with
  | none => .error (model ++ " is not a valid GeminiModel")
  | some m =>
    .ok (voices.enum.map (fun iv =>
      (generate_speech (envs iv.1)
        { voice := iv.2, text := text, persona_id := persona_id, model := m }
        session_id).1))

/-- The lifecycle of one per-voice generation task inside
`generate_batch`: not yet admitted by the semaphore, holding a permit
(inside `async with semaphore`), or finished (permit released). -/
inductive TaskPhase
  | pending
  | running
  | finished
deriving DecidableEq

/-- True exactly for a task currently holding a permit. -/
def isRunning : TaskPhase → Bool
  | .running => true
  | _ => false

/-- A snapshot of the batch scheduler: the phase of every task and the
free-permit count of the `asyncio.Semaphore`. -/
structure BatchState where
  tasks : List TaskPhase
  permits : Nat
deriving DecidableEq

/-- The number of generations in flight in a snapshot. -/
def runningCount (s : BatchState) : Nat :=
  s.tasks.countP isRunning

/-- The scheduler state when `generate_batch` starts: one pending task
per voice and the five permits of `asyncio.Semaphore(5)`
(tts_service.py line 237). -/
def initBatchState (n : Nat) : BatchState :=
  { tasks := List.replicate n .pending, permits := 5 }

/-- The cooperative scheduling steps of `generate_batch` (tts_service.py
lines 237-250): a pending task is admitted only when a permit is free
(`async with semaphore` suspends otherwise), and a running task
finishes by giving its permit back.  The event loop picks any enabled
task. -/
inductive BatchStep : BatchState → BatchState → Prop
  | acquire (s : BatchState) (i : Nat) (hp : s.tasks[i]? = some .pending)
      (hfree : 0 < s.permits) :
      BatchStep s { tasks := s.tasks.set i .running, permits := s.permits - 1 }
  | release (s : BatchState) (i : Nat) (hr : s.tasks[i]? = some .running) :
      BatchStep s { tasks := s.tasks.set i .finished, permits := s.permits + 1 }

/-- The states an n-voice batch can reach from its initial state. -/
inductive BatchReach (n : Nat) : BatchState → Prop
  | init : BatchReach n (initBatchState n)
  | step {s t : BatchState} : BatchReach n s → BatchStep s t → BatchReach n t

theorem countP_set_balance (p : TaskPhase → Bool) (l : List TaskPhase) (i : Nat)
    (a b : TaskPhase) (h : l[i]? = some a) :
    (l.set i b).countP p + (if p a then 1 else 0) = l.countP p + (if p b then 1 else 0) := by
  induction l generalizing i with
  | nil => simp at h
  | cons x xs ih =>
    cases i with
    | zero =>
      simp only [List.getElem?_cons_zero, Option.some.injEq] at h
      subst h
      simp [List.countP_cons]
      omega
    | succ j =>
      simp only [List.getElem?_cons_succ] at h
      simp only [List.set_cons_succ, List.countP_cons]
      have := ih j h
      omega

theorem countP_replicate_pending (n : Nat) :
    (List.replicate n TaskPhase.pending).countP isRunning = 0 := by
  induction n with
  | zero => simp
  | succ m ih => simp [List.replicate_succ, List.countP_cons, isRunning, ih]

/-- The semaphore bookkeeping: in every reachable scheduler state the
in-flight count plus the free permits equal the capacity 5. -/
theorem batch_reach_invariant {n : Nat} {s : BatchState} (h : BatchReach n s) :
    runningCount s + s.permits = 5 := by
  induction h with
  | init => simp [runningCount, initBatchState, countP_replicate_pending]
  | @step s t hr hstep ih =>
    cases hstep with
    | acquire i hp hfree =>
      have hbal := countP_set_balance isRunning s.tasks i _ TaskPhase.running hp
      simp [isRunning] at hbal
      simp only [runningCount] at ih ⊢
      omega
    | release i hrun =>
      have hbal := countP_set_balance isRunning s.tasks i _ TaskPhase.finished hrun
      simp [isRunning] at hbal
      simp only [runningCount] at ih ⊢
      omega

/-- C9: during any execution of generate_batch, at no instant are more
than 5 per-voice generations in flight; a saturated state has no free
permit, so no further task can be admitted until a running generation
releases its slot (every step enabled from a saturated state increases
the free-permit count). -/
theorem batch_concurrency_bound (n : Nat) (s : BatchState) (h : BatchReach n s) :
    runningCount s ≤ 5 ∧
    (runningCount s = 5 → s.permits = 0) ∧
    (runningCount s = 5 → ∀ t, BatchStep s t → s.permits < t.permits) := by
  have hinv := batch_reach_invariant h
  refine ⟨by omega, by omega, ?_⟩
  intro hfull t hstep
  cases hstep with
  | acquire i hp hfree => omega
  | release i hrun => simp

theorem batch_concurrency_bound_witness :
    BatchReach 8 (initBatchState 8) ∧
      (runningCount (initBatchState 8) ≤ 5 ∧
       (runningCount (initBatchState 8) = 5 → (initBatchState 8).permits = 0) ∧
       (runningCount (initBatchState 8) = 5 →
         ∀ t, BatchStep (initBatchState 8) t → (initBatchState 8).permits < t.permits)) :=
  ⟨BatchReach.init, batch_concurrency_bound 8 (initBatchState 8) BatchReach.init⟩

theorem runStreamAux_wellFormed (chunks : List Genai.Chunk)
    (acc : List (List Nat)) (m : Option String)
    (hwf : ∀ c ∈ chunks, WellFormedChunk c = true) :
    runStreamAux (acc, m) chunks =
      .ok (acc ++ chunks.filterMap chunkPayload,
           match m with
           | some s => some s
           | none => firstAudioMime chunks) := by
  induction chunks generalizing acc m with
  | nil => cases m <;> simp [runStreamAux, firstAudioMime]
  | cons c rest ih =>
    have hc := hwf c (by simp)
    have hrest : ∀ x ∈ rest, WellFormedChunk x = true := fun x hx => hwf x (by simp [hx])
    obtain ⟨cands⟩ := c
    cases cands with
    | none =>
      simp [runStreamAux, consumeChunk, chunkPayload, firstAudioMime, ih _ _ hrest]
    | some cl =>
      cases cl with
      | nil => simp [WellFormedChunk] at hc
      | cons c0 ctl =>
        obtain ⟨ct⟩ := c0
        cases ct with
        | none =>
          simp [runStreamAux, consumeChunk, chunkPayload, firstAudioMime, ih _ _ hrest]
        | some content =>
          obtain ⟨ps⟩ := content
          cases ps with
          | none =>
            simp [runStreamAux, consumeChunk, chunkPayload, firstAudioMime, ih _ _ hrest]
          | some pl =>
            cases pl with
            | nil => simp [WellFormedChunk] at hc
            | cons p0 ptl =>
              obtain ⟨bl⟩ := p0
              cases bl with
              | none =>
                simp [runStreamAux, consumeChunk, chunkPayload, firstAudioMime, ih _ _ hrest]
              | some blob =>
                obtain ⟨bd, bm⟩ := blob
                cases bd with
                | none =>
                  simp [runStreamAux, consumeChunk, chunkPayload, firstAudioMime, ih _ _ hrest]
                | some d =>
                  cases d with
                  | nil =>
                    simp [runStreamAux, consumeChunk, chunkPayload, firstAudioMime,
                      ih _ _ hrest]
                  | cons b bs =>
                    cases m with
                    | none =>
                      cases bm with
                      | none =>
                        simp [runStreamAux, consumeChunk, chunkPayload, chunkMime,
                          firstAudioMime, ih _ _ hrest]
                      | some mm =>
                        simp [runStreamAux, consumeChunk, chunkPayload, chunkMime,
                          firstAudioMime, ih _ _ hrest]
                    | some ms =>
                      simp [runStreamAux, consumeChunk, chunkPayload, chunkMime,
                        firstAudioMime, ih _ _ hrest]

/-- On a stream of well-formed chunks the loop finishes without raising,
accumulating exactly the truthy payloads in arrival order and capturing
the first non-null descriptor of an audio-bearing chunk. -/
theorem runStream_wellFormed (chunks : List Genai.Chunk)
    (hwf : ∀ c ∈ chunks, WellFormedChunk c = true) :
    runStream chunks = .ok (chunks.filterMap chunkPayload, firstAudioMime chunks) := by
  simpa [runStream] using runStreamAux_wellFormed chunks [] none hwf

/-- Build a chunk whose first candidate and part carry an inline audio
payload and descriptor. -/
def audioChunk (d : List Nat) (m : Option String) : Genai.Chunk :=
  Genai.Chunk.mk
    (some [Genai.Candidate.mk
      (some (Genai.Content.mk
        (some [Genai.Part.mk (some (Genai.Blob.mk (some d) m))])))])

/-- Claim C1 as stated, as a decidable check on one stream: the loop
raises on no chunk, the payload passed to the WAV encoder is the
concatenation in arrival order of the audio-bearing chunks, and the
descriptor used is the first non-null one supplied by an audio-bearing
chunk, with the literal default when none was supplied. -/
def claimC1Holds (chunks : List Genai.Chunk) : Bool :=
  match runStream chunks with
  | .error _ => false
  | .ok (payloads, mime) =>
    (payloads.flatten == (chunks.filterMap chunkPayload).flatten) &&
    (pyOrStr mime "audio/L16;rate=24000" ==
      match firstAudioMime chunks with
      | some m => m
      | none => "audio/L16;rate=24000")

def c1exEmptyMime : Genai.Chunk := audioChunk [65] (some "")
def c1exLateMime : Genai.Chunk := audioChunk [66] (some "audio/L8;rate=8000")

/-- C1 (counterexample): the first audio-bearing chunk may supply the
empty string as its descriptor; the code captures it (so later
descriptors are ignored) but then line 171 `mime_type or default`
treats it as absent and encodes with the default descriptor, not with
the captured one as the claim states. -/
theorem c1_counterexample : claimC1Holds [c1exEmptyMime, c1exLateMime] = false := by decide

/-- C1 (amended): for streams whose chunks are well formed (any present
candidate or part list is nonempty), the payload passed to the WAV
encoder is the concatenation in arrival order of the audio-bearing
chunks (audio-free chunks are skipped without error), the captured
descriptor is the first non-null one supplied by an audio-bearing
chunk, and the descriptor actually used falls back to the literal
default both when no descriptor was captured and when the captured
descriptor is the empty string. -/
theorem stream_assembly_amended (chunks : List Genai.Chunk)
    (hwf : ∀ c ∈ chunks, WellFormedChunk c = true) :
    ∃ payloads mime,
      runStream chunks = .ok (payloads, mime) ∧
      payloads = chunks.filterMap chunkPayload ∧
      mime = firstAudioMime chunks ∧
      pyOrStr mime "audio/L16;rate=24000" =
        (match firstAudioMime chunks with
         | some m => if m = "" then "audio/L16;rate=24000" else m
         | none => "audio/L16;rate=24000") := by
  refine ⟨chunks.filterMap chunkPayload, firstAudioMime chunks,
    runStream_wellFormed chunks hwf, rfl, rfl, ?_⟩
  cases firstAudioMime chunks with
  | none => simp [pyOrStr]
  | some m => simp [pyOrStr]

def c1WitnessChunks : List Genai.Chunk :=
  [{ candidates := none },
   audioChunk [1, 2] none,
   audioChunk [] (some "ignored"),
   audioChunk [3] (some "audio/L8;rate=8000"),
   audioChunk [4, 5] (some "audio/L16;rate=44100")]

theorem stream_assembly_amended_witness :
    (∀ c ∈ c1WitnessChunks, WellFormedChunk c = true) ∧
      (∃ payloads mime,
        runStream c1WitnessChunks = .ok (payloads, mime) ∧
        payloads = c1WitnessChunks.filterMap chunkPayload ∧
        mime = firstAudioMime c1WitnessChunks ∧
        pyOrStr mime "audio/L16;rate=24000" =
          (match firstAudioMime c1WitnessChunks with
           | some m => if m = "" then "audio/L16;rate=24000" else m
           | none => "audio/L16;rate=24000")) :=
  ⟨by decide, stream_assembly_amended c1WitnessChunks (by decide)⟩

/-- Claim C2 as stated, as a decidable check: whenever the stream
yields zero chunks carrying an audio payload, the invocation fails
with exactly "No audio data received" and writes no file. -/
def claimC2Holds (env : Env) (req : GenerateRequest) (sid : Option String) : Bool :=
  if env.chunks.filterMap chunkPayload == [] then
    ((generate_speech env req sid).1.success == false) &&
    ((generate_speech env req sid).1.error == some "No audio data received") &&
    ((generate_speech env req sid).2 == [])
  else true

def emptyCandidatesChunk : Genai.Chunk := Genai.Chunk.mk (some [])

def reqZephyr : GenerateRequest := { voice := "Zephyr", text := "Hello" }

def envEmptyCandidates : Env :=
  { chunks := [emptyCandidatesChunk], personas := [], timestamp := "2025-01-01_000000" }

/-- C2 (counterexample): a chunk whose candidate list is present but
empty carries no audio payload, yet the loop indexes `candidates[0]`
and the resulting IndexError is converted into a failure whose message
is "list index out of range", not "No audio data received". -/
theorem c2_counterexample : claimC2Holds envEmptyCandidates reqZephyr none = false := by decide

/-- C2 (amended): when every chunk is well formed (any present
candidate or part list is nonempty) and none carries an audio payload,
generate_speech fails with exactly "No audio data received" and the
invocation writes neither the audio file nor the metadata sidecar. -/
theorem no_audio_failure_amended (env : Env) (req : GenerateRequest) (sid : Option String)
    (hwf : ∀ c ∈ env.chunks, WellFormedChunk c = true)
    (hempty : env.chunks.filterMap chunkPayload = []) :
    (generate_speech env req sid).1 = mkFailure "No audio data received" ∧
    (generate_speech env req sid).2 = [] := by
  have h := runStream_wellFormed env.chunks hwf
  rw [hempty] at h
  simp [generate_speech, h]

def envNoAudio : Env :=
  { chunks := [Genai.Chunk.mk none, audioChunk [] (some "audio/L16;rate=24000")],
    personas := [], timestamp := "2025-01-01_000000" }

theorem no_audio_failure_amended_witness :
    (∀ c ∈ envNoAudio.chunks, WellFormedChunk c = true) ∧
    envNoAudio.chunks.filterMap chunkPayload = [] ∧
    ((generate_speech envNoAudio reqZephyr none).1 = mkFailure "No audio data received" ∧
     (generate_speech envNoAudio reqZephyr none).2 = []) :=
  ⟨by decide, by decide,
    no_audio_failure_amended envNoAudio reqZephyr none (by decide) (by decide)⟩

/-- Reduction of generate_speech when the stream loop raises. -/
theorem generate_speech_error (env : Env) (req : GenerateRequest) (sid : Option String)
    (e : String) (h : runStream env.chunks = .error e) :
    generate_speech env req sid = (mkFailure e, []) := by
  unfold generate_speech
  rw [h]

/-- Reduction of generate_speech when the stream loop collects no
payload. -/
theorem generate_speech_ok_nil (env : Env) (req : GenerateRequest) (sid : Option String)
    (mime : Option String) (h : runStream env.chunks = .ok ([], mime)) :
    generate_speech env req sid = (mkFailure "No audio data received", []) := by
  unfold generate_speech
  rw [h]
  rfl

/-- Reduction of generate_speech when the stream loop collects at least
one payload. -/
theorem generate_speech_ok_cons (env : Env) (req : GenerateRequest) (sid : Option String)
    (p : List Nat) (ps : List (List Nat)) (mime : Option String)
    (h : runStream env.chunks = .ok (p :: ps, mime)) :
    generate_speech env req sid = encodePhase env req sid (p :: ps) mime := by
  unfold generate_speech
  rw [h]
  show (if (p :: ps).isEmpty = true then (mkFailure "No audio data received", [])
        else encodePhase env req sid (p :: ps) mime) =
      encodePhase env req sid (p :: ps) mime
  rw [List.isEmpty_cons]
  simp only [Bool.false_eq_true, if_false]

/-- Reduction of the encode phase when the packed header is in range. -/
theorem encodePhase_some (env : Env) (req : GenerateRequest) (sid : Option String)
    (audio_chunks : List (List Nat)) (mime : Option String) (wav : List Nat)
    (hcv : convert_to_wav audio_chunks.flatten (pyOrStr mime "audio/L16;rate=24000") = some wav) :
    encodePhase env req sid audio_chunks mime =
      writePhase env req sid (resolvePersona env.personas req.persona_id)
        (personaNameFor env.personas req.persona_id) wav := by
  unfold encodePhase
  rw [hcv]
  rfl

/-- Reduction of the encode phase when packing raises. -/
theorem encodePhase_none (env : Env) (req : GenerateRequest) (sid : Option String)
    (audio_chunks : List (List Nat)) (mime : Option String)
    (hcv : convert_to_wav audio_chunks.flatten (pyOrStr mime "audio/L16;rate=24000") = none) :
    encodePhase env req sid audio_chunks mime =
      (mkFailure "struct.error: argument out of range", []) := by
  unfold encodePhase
  rw [hcv]
  rfl

/-- Claim C3 as stated, as a decidable check: a failed invocation
leaves no file on disk. -/
def claimC3Holds (env : Env) (req : GenerateRequest) (sid : Option String) : Bool :=
  (generate_speech env req sid).1.success || (generate_speech env req sid).2.isEmpty

def okAudioChunk : Genai.Chunk := audioChunk [1, 2] (some "audio/L16;rate=24000")

def envMetaWriteFails : Env :=
  { chunks := [okAudioChunk], personas := [], timestamp := "2025-01-01_000000",
    metaWriteError := some "No space left on device" }

/-- C3 (counterexample): when the metadata write raises after the audio
write succeeded, the invocation returns a failure result yet the audio
file is already on disk, an orphan half of the pair. -/
theorem c3_counterexample : claimC3Holds envMetaWriteFails reqZephyr none = false := by decide

/-- C3 (amended): a generation that fails anywhere before the audio
write (stream exception, empty audio, encoder failure, audio-write
failure) leaves no file on disk; only a metadata-write or
session-update failure, both of which happen after the audio file is
written, can leave files behind (there is no cleanup). -/
theorem failure_leaves_no_files_amended (env : Env) (req : GenerateRequest)
    (sid : Option String) (hm : env.metaWriteError = none) (hs : env.sessionAddError = none)
    (hfail : (generate_speech env req sid).1.success = false) :
    (generate_speech env req sid).2 = [] := by
  cases hrs : runStream env.chunks with
  | error e => rw [generate_speech_error env req sid e hrs]
  | ok pair =>
    obtain ⟨payloads, mime⟩ := pair
    cases payloads with
    | nil => rw [generate_speech_ok_nil env req sid mime hrs]
    | cons p ps =>
      rw [generate_speech_ok_cons env req sid p ps mime hrs] at hfail ⊢
      cases hcv : convert_to_wav ((p :: ps).flatten) (pyOrStr mime "audio/L16;rate=24000") with
      | none => rw [encodePhase_none env req sid (p :: ps) mime hcv]
      | some wav =>
        rw [encodePhase_some env req sid (p :: ps) mime wav hcv] at hfail ⊢
        unfold writePhase at hfail ⊢
        cases haw : env.audioWriteError with
        | some e => simp [haw]
        | none =>
          simp only [haw, hm, hs] at hfail ⊢
          cases hact : pyOrOpt sid env.activeSessionId with
          | none => simp [hact, mkSuccessResponse] at hfail
          | some sact => simp [hact, mkSuccessResponse] at hfail

def envAudioWriteFails : Env :=
  { chunks := [okAudioChunk], personas := [], timestamp := "2025-01-01_000000",
    audioWriteError := some "Permission denied" }

theorem failure_leaves_no_files_amended_witness :
    envAudioWriteFails.metaWriteError = none ∧
    envAudioWriteFails.sessionAddError = none ∧
    (generate_speech envAudioWriteFails reqZephyr none).1.success = false ∧
    (generate_speech envAudioWriteFails reqZephyr none).2 = [] :=
  ⟨rfl, rfl, by decide,
    failure_leaves_no_files_amended envAudioWriteFails reqZephyr none rfl rfl (by decide)⟩

/-- The response component of the write phase depends only on the
environment, the voice, the persona display name and the session
branch taken: it never contains the session identifier or the persona
record. -/
theorem writePhase_fst_eq (env : Env) (req req2 : GenerateRequest) (sid sid2 : Option String)
    (pd pd2 : Option Persona) (pn : String) (wav : List Nat)
    (hvoice : req2.voice = req.voice)
    (hses : env.sessionAddError = none ∨
      pyOrOpt sid2 env.activeSessionId = pyOrOpt sid env.activeSessionId) :
    (writePhase env req2 sid2 pd2 pn wav).1 = (writePhase env req sid pd pn wav).1 := by
  unfold writePhase
  rw [hvoice]
  cases env.audioWriteError with
  | some e => rfl
  | none =>
    cases env.metaWriteError with
    | some e => rfl
    | none =>
      rcases hses with hs | heq
      · rw [hs]
        cases pyOrOpt sid2 env.activeSessionId <;> cases pyOrOpt sid env.activeSessionId <;> rfl
      · rw [heq]
        cases pyOrOpt sid env.activeSessionId with
        | none => rfl
        | some sact => cases env.sessionAddError <;> rfl

/-- When the persona does not resolve the display name stays the
literal "default" (tts_service.py line 110). -/
theorem personaNameFor_none (personas : List (String × Persona)) (pidOpt : Option String)
    (h : resolvePersona personas pidOpt = none) :
    personaNameFor personas pidOpt = "default" := by
  unfold personaNameFor
  rw [h]
  cases pidOpt <;> rfl

/-- Claim C4 as stated, as a decidable check: a payload carrying both a
persona identifier and a literal tone-instruction override yields a
prompt built from the override under the tone template. -/
def claimC4Holds (personas : List (String × Persona)) (p : RequestPayload) : Bool :=
  match p.tone_instructions, p.persona_id with
  | some o, some _ =>
    promptFor personas (parseGenerateRequest p).persona_id (parseGenerateRequest p).text ==
      "Read aloud in " ++ o ++ "\n\n" ++ p.text
  | _, _ => true

def busyBossCatalog : List (String × Persona) :=
  [("busy_boss", { name := some "Busy Boss",
                   tone_instructions := some "Fast pace, annoyed tone." })]

def payloadWithOverride : RequestPayload :=
  { voice := "Zephyr", text := "Hi", persona_id := some "busy_boss",
    tone_instructions := some "calm whisper" }

/-- C4 (counterexample): models.py declares no tone-instruction
override on GenerateRequest, so pydantic drops the payload field and
the prompt is built from the persona catalog tone, not from the
override. -/
theorem c4_counterexample : claimC4Holds busyBossCatalog payloadWithOverride = false := by
  decide

/-- C4 (amended): the request model has no tone-instruction override
field; a tone_instructions entry in the payload is discarded by
validation, and the prompt construction is entirely independent of
it (it uses only the resolved persona tone and the text). -/
theorem tone_override_dropped (personas : List (String × Persona)) (p : RequestPayload)
    (o : Option String) :
    parseGenerateRequest { p with tone_instructions := o } = parseGenerateRequest p ∧
    promptFor personas (parseGenerateRequest { p with tone_instructions := o }).persona_id
        (parseGenerateRequest { p with tone_instructions := o }).text =
      promptFor personas p.persona_id p.text :=
  ⟨rfl, rfl⟩

/-- C5: the response returned by a successful (or any) generation is
identical whatever session the generation is attributed to, because
models.py lines 15-20 declare no session_id field and pydantic drops
the keyword passed at tts_service.py line 222; the owning session
identifier is therefore absent from the result. -/
theorem response_independent_of_session (env : Env) (req : GenerateRequest) (s t : String)
    (hs : env.sessionAddError = none) :
    (generate_speech env req (some s)).1 = (generate_speech env req (some t)).1 := by
  cases hrs : runStream env.chunks with
  | error e =>
    rw [generate_speech_error env req (some s) e hrs,
        generate_speech_error env req (some t) e hrs]
  | ok pair =>
    obtain ⟨payloads, mime⟩ := pair
    cases payloads with
    | nil =>
      rw [generate_speech_ok_nil env req (some s) mime hrs,
          generate_speech_ok_nil env req (some t) mime hrs]
    | cons p ps =>
      rw [generate_speech_ok_cons env req (some s) p ps mime hrs,
          generate_speech_ok_cons env req (some t) p ps mime hrs]
      cases hcv : convert_to_wav ((p :: ps).flatten) (pyOrStr mime "audio/L16;rate=24000") with
      | none =>
        rw [encodePhase_none env req (some s) (p :: ps) mime hcv,
            encodePhase_none env req (some t) (p :: ps) mime hcv]
      | some wav =>
        rw [encodePhase_some env req (some s) (p :: ps) mime wav hcv,
            encodePhase_some env req (some t) (p :: ps) mime wav hcv]
        exact writePhase_fst_eq env req req (some t) (some s) _ _ _ wav rfl (Or.inl hs)

def envWithSessions : Env :=
  { chunks := [okAudioChunk], personas := [], timestamp := "2025-01-01_000000",
    activeSessionId := some "session_2024-12-31_235959" }

theorem response_independent_of_session_witness :
    envWithSessions.sessionAddError = none ∧
    (generate_speech envWithSessions reqZephyr (some "session_2025-01-01_000000")).1 =
      (generate_speech envWithSessions reqZephyr (some "session_2025-06-30_120000")).1 :=
  ⟨rfl, response_independent_of_session envWithSessions reqZephyr
    "session_2025-01-01_000000" "session_2025-06-30_120000" rfl⟩

/-- C7: prompt construction and silent persona fallback.  When the
identifier resolves to a persona with nonempty tone instructions the
prompt is exactly the tone template; when it resolves with empty tone,
or does not resolve at all (absent, empty or unknown identifier), the
prompt is the text unchanged; a non-resolving identifier additionally
labels the artifact with persona name "default" and raises no error:
the whole generation behaves exactly as if no persona had been
requested (same response), only the sidecar persona_id line differs. -/
theorem persona_prompt_rules (personas : List (String × Persona)) (pidOpt : Option String)
    (text : String) :
    (∀ p, resolvePersona personas pidOpt = some p →
        (p.tone_instructions.getD "" ≠ "" →
          promptFor personas pidOpt text =
            "Read aloud in " ++ p.tone_instructions.getD "" ++ "\n\n" ++ text) ∧
        (p.tone_instructions.getD "" = "" → promptFor personas pidOpt text = text)) ∧
    (resolvePersona personas pidOpt = none →
        promptFor personas pidOpt text = text ∧
        personaNameFor personas pidOpt = "default") ∧
    (∀ env req sid, resolvePersona env.personas req.persona_id = none →
        (generate_speech env req sid).1 =
          (generate_speech env { req with persona_id := none } sid).1) := by
  refine ⟨?_, ?_, ?_⟩
  · intro p hres
    constructor
    · intro htone
      unfold promptFor
      rw [hres]
      simp only [if_neg htone]
    · intro htone
      unfold promptFor
      rw [hres]
      simp only [htone, if_pos]
  · intro hres
    exact ⟨by unfold promptFor; rw [hres], personaNameFor_none personas pidOpt hres⟩
  · intro env req sid hres
    cases hrs : runStream env.chunks with
    | error e =>
      rw [generate_speech_error env req sid e hrs,
          generate_speech_error env { req with persona_id := none } sid e hrs]
    | ok pair =>
      obtain ⟨payloads, mime⟩ := pair
      cases payloads with
      | nil =>
        rw [generate_speech_ok_nil env req sid mime hrs,
            generate_speech_ok_nil env { req with persona_id := none } sid mime hrs]
      | cons p ps =>
        rw [generate_speech_ok_cons env req sid p ps mime hrs,
            generate_speech_ok_cons env { req with persona_id := none } sid p ps mime hrs]
        cases hcv : convert_to_wav ((p :: ps).flatten) (pyOrStr mime "audio/L16;rate=24000") with
        | none =>
          rw [encodePhase_none env req sid (p :: ps) mime hcv,
              encodePhase_none env { req with persona_id := none } sid (p :: ps) mime hcv]
        | some wav =>
          rw [encodePhase_some env req sid (p :: ps) mime wav hcv,
              encodePhase_some env { req with persona_id := none } sid (p :: ps) mime wav hcv]
          rw [hres, personaNameFor_none env.personas req.persona_id hres]
          have hres2 : resolvePersona env.personas
              ({ req with persona_id := none } : GenerateRequest).persona_id = none := rfl
          have hname2 : personaNameFor env.personas
              ({ req with persona_id := none } : GenerateRequest).persona_id = "default" := rfl
          rw [hres2, hname2]
          exact writePhase_fst_eq env { req with persona_id := none } req sid sid
            none none "default" wav rfl (Or.inr rfl)

def unknownPersonaReq : GenerateRequest :=
  { voice := "Fenrir", text := "Hi", persona_id := some "nobody" }

def envBusyBoss : Env :=
  { chunks := [okAudioChunk], personas := busyBossCatalog,
    timestamp := "2025-01-01_000000" }

theorem persona_prompt_rules_witness :
    (resolvePersona busyBossCatalog (some "busy_boss") =
        some { name := some "Busy Boss",
               tone_instructions := some "Fast pace, annoyed tone." } ∧
      promptFor busyBossCatalog (some "busy_boss") "Hi" =
        "Read aloud in Fast pace, annoyed tone.\n\nHi") ∧
    (resolvePersona busyBossCatalog (some "nobody") = none ∧
      promptFor busyBossCatalog (some "nobody") "Hi" = "Hi" ∧
      personaNameFor busyBossCatalog (some "nobody") = "default") ∧
    (generate_speech envBusyBoss unknownPersonaReq none).1 =
      (generate_speech envBusyBoss { unknownPersonaReq with persona_id := none } none).1 :=
  ⟨⟨by decide,
    by
      have h := ((persona_prompt_rules busyBossCatalog (some "busy_boss") "Hi").1
        { name := some "Busy Boss", tone_instructions := some "Fast pace, annoyed tone." }
        (by decide)).1 (by decide)
      simpa using h⟩,
   ⟨by decide,
    ((persona_prompt_rules busyBossCatalog (some "nobody") "Hi").2.1 (by decide)).1,
    ((persona_prompt_rules busyBossCatalog (some "nobody") "Hi").2.1 (by decide)).2⟩,
   (persona_prompt_rules busyBossCatalog (some "nobody") "Hi").2.2 envBusyBoss
     unknownPersonaReq none (by decide)⟩

theorem packU32_ofNat (n : Nat) (h : n < 4294967296) : packU32 (n : Int) = some (le32 n) := by
  unfold packU32
  rw [if_pos ⟨Int.natCast_nonneg n, by exact_mod_cast h⟩]
  simp

theorem packU16_ofNat (n : Nat) (h : n < 65536) : packU16 (n : Int) = some (le16 n) := by
  unfold packU16
  rw [if_pos ⟨Int.natCast_nonneg n, by exact_mod_cast h⟩]
  simp

theorem readLE32_le32_append (n : Nat) (rest : List Nat) (h : n < 4294967296) :
    readLE32 (le32 n ++ rest) = n := by
  simp only [le32, List.cons_append, List.nil_append, readLE32]
  omega

/-- C6: for every payload and descriptor whose parsed rate and bit
depth are valid (representable in their header fields, nonnegative,
with a representable byte rate) and whose payload leaves the 32-bit
RIFF size representable, the encoder output is 44 header bytes plus
the payload unchanged; the little-endian field at offset 4 declares
36 + L, the field at offset 40 declares L, and the field at offset 28
declares rate * channels * (bits floor-divided by 8) with one
channel. -/
theorem convert_to_wav_framing (audio_data : List Nat) (mime_type : String)
    (hr0 : 0 ≤ (parse_audio_mime_type mime_type).rate)
    (hr1 : (parse_audio_mime_type mime_type).rate < 4294967296)
    (hb0 : 0 ≤ (parse_audio_mime_type mime_type).bits_per_sample)
    (hb1 : (parse_audio_mime_type mime_type).bits_per_sample < 65536)
    (hbr : (parse_audio_mime_type mime_type).rate *
        Int.fdiv (parse_audio_mime_type mime_type).bits_per_sample 8 < 4294967296)
    (hL : (audio_data.length : Int) + 36 < 4294967296) :
    ∃ out, convert_to_wav audio_data mime_type = some out ∧
      out.length = 44 + audio_data.length ∧
      readLE32 (out.drop 4) = 36 + audio_data.length ∧
      readLE32 (out.drop 40) = audio_data.length ∧
      (readLE32 (out.drop 28) : Int) =
        (parse_audio_mime_type mime_type).rate * 1 *
          Int.fdiv (parse_audio_mime_type mime_type).bits_per_sample 8 ∧
      out.drop 44 = audio_data := by
  obtain ⟨b, hbEq⟩ := Int.eq_ofNat_of_zero_le hb0
  obtain ⟨r, hrEq⟩ := Int.eq_ofNat_of_zero_le hr0
  have hfd : Int.fdiv (parse_audio_mime_type mime_type).bits_per_sample 8 =
      ((b / 8 : Nat) : Int) := by
    rw [hbEq]
    exact_mod_cast (Int.ofNat_fdiv b 8).symm
  have hbN : b < 65536 := by rw [hbEq] at hb1; exact_mod_cast hb1
  have hrN : r < 4294967296 := by rw [hrEq] at hr1; exact_mod_cast hr1
  have hbrN : r * (b / 8) < 4294967296 := by
    rw [hrEq, hfd] at hbr
    exact_mod_cast hbr
  have hLN : 36 + audio_data.length < 4294967296 := by omega
  have hcs : (36 : Int) + (audio_data.length : Int) =
      ((36 + audio_data.length : Nat) : Int) := by omega
  refine ⟨RIFF_MAGIC ++ le32 (36 + audio_data.length) ++ WAVE_MAGIC ++ FMT_MAGIC ++
      le32 16 ++ le16 1 ++ le16 1 ++ le32 r ++ le32 (r * (b / 8)) ++ le16 (b / 8) ++
      le16 b ++ DATA_MAGIC ++ le32 audio_data.length ++ audio_data, ?_, ?_, ?_, ?_, ?_, ?_⟩
  · simp only [convert_to_wav]
    rw [hfd, hrEq, hbEq, one_mul, hcs, ← Int.natCast_mul]
    rw [packU32_ofNat _ hLN, packU32_ofNat r hrN, packU32_ofNat _ hbrN,
      packU16_ofNat _ (by omega), packU16_ofNat b hbN,
      packU32_ofNat audio_data.length (by omega)]
    rfl
  · simp only [RIFF_MAGIC, WAVE_MAGIC, FMT_MAGIC, DATA_MAGIC, le32, le16,
      List.length_append, List.length_cons, List.length_nil]
  · have e : (RIFF_MAGIC ++ le32 (36 + audio_data.length) ++ WAVE_MAGIC ++ FMT_MAGIC ++
        le32 16 ++ le16 1 ++ le16 1 ++ le32 r ++ le32 (r * (b / 8)) ++ le16 (b / 8) ++
        le16 b ++ DATA_MAGIC ++ le32 audio_data.length ++ audio_data).drop 4 =
        le32 (36 + audio_data.length) ++ (WAVE_MAGIC ++ FMT_MAGIC ++ le32 16 ++ le16 1 ++
          le16 1 ++ le32 r ++ le32 (r * (b / 8)) ++ le16 (b / 8) ++ le16 b ++ DATA_MAGIC ++
          le32 audio_data.length ++ audio_data) := by rfl
    rw [e, readLE32_le32_append _ _ hLN]
  · have e : (RIFF_MAGIC ++ le32 (36 + audio_data.length) ++ WAVE_MAGIC ++ FMT_MAGIC ++
        le32 16 ++ le16 1 ++ le16 1 ++ le32 r ++ le32 (r * (b / 8)) ++ le16 (b / 8) ++
        le16 b ++ DATA_MAGIC ++ le32 audio_data.length ++ audio_data).drop 40 =
        le32 audio_data.length ++ audio_data := by rfl
    rw [e, readLE32_le32_append _ _ (by omega)]
  · have e : (RIFF_MAGIC ++ le32 (36 + audio_data.length) ++ WAVE_MAGIC ++ FMT_MAGIC ++
        le32 16 ++ le16 1 ++ le16 1 ++ le32 r ++ le32 (r * (b / 8)) ++ le16 (b / 8) ++
        le16 b ++ DATA_MAGIC ++ le32 audio_data.length ++ audio_data).drop 28 =
        le32 (r * (b / 8)) ++ (le16 (b / 8) ++ le16 b ++ DATA_MAGIC ++
          le32 audio_data.length ++ audio_data) := by rfl
    rw [e, readLE32_le32_append _ _ hbrN, hrEq, hfd]
    push_cast
    ring
  · rfl

theorem convert_to_wav_framing_witness :
    (0 ≤ (parse_audio_mime_type "audio/L16;rate=24000").rate ∧
     (parse_audio_mime_type "audio/L16;rate=24000").rate < 4294967296 ∧
     0 ≤ (parse_audio_mime_type "audio/L16;rate=24000").bits_per_sample ∧
     (parse_audio_mime_type "audio/L16;rate=24000").bits_per_sample < 65536 ∧
     (parse_audio_mime_type "audio/L16;rate=24000").rate *
       Int.fdiv (parse_audio_mime_type "audio/L16;rate=24000").bits_per_sample 8 <
         4294967296 ∧
     (([9, 9, 9] : List Nat).length : Int) + 36 < 4294967296) ∧
    (∃ out, convert_to_wav [9, 9, 9] "audio/L16;rate=24000" = some out ∧
      out.length = 44 + ([9, 9, 9] : List Nat).length ∧
      readLE32 (out.drop 4) = 36 + ([9, 9, 9] : List Nat).length ∧
      readLE32 (out.drop 40) = ([9, 9, 9] : List Nat).length ∧
      (readLE32 (out.drop 28) : Int) =
        (parse_audio_mime_type "audio/L16;rate=24000").rate * 1 *
          Int.fdiv (parse_audio_mime_type "audio/L16;rate=24000").bits_per_sample 8 ∧
      out.drop 44 = [9, 9, 9]) :=
  ⟨⟨by decide, by decide, by decide, by decide, by decide, by decide⟩,
   convert_to_wav_framing [9, 9, 9] "audio/L16;rate=24000"
     (by decide) (by decide) (by decide) (by decide) (by decide) (by decide)⟩

/-- C8: for every voice list (duplicates included) and valid model
string, generate_batch returns one result per voice: the result list
has the same length, its i-th entry is exactly the outcome of the
generation run for the i-th voice in its own environment, and that
entry is unchanged whatever happens in the environments of the other voices
(asyncio.gather collects every outcome, one per task, without
fail-fast cancellation, since generate_speech never raises). -/
theorem batch_one_result_per_voice (envs : Nat → Env) (voices : List String)
    (text : String) (pid : Option String) (model : String) (sid : Option String)
    (m : GeminiModel) (hm : GeminiModel.ofString model = some m) :
    ∃ rs, generate_batch envs voices text pid model sid = .ok rs ∧
      rs.length = voices.length ∧
      (∀ i (h : i < voices.length),
        rs[i]? = some (generate_speech (envs i)
          { voice := voices[i], text := text, persona_id := pid, model := m } sid).1) ∧
      (∀ (envs2 : Nat → Env) i, i < voices.length → envs2 i = envs i →
        ∃ rs2, generate_batch envs2 voices text pid model sid = .ok rs2 ∧
          rs2[i]? = rs[i]?) := by
  have hbatch : ∀ (e : Nat → Env), generate_batch e voices text pid model sid =
      .ok (voices.enum.map (fun iv =>
        (generate_speech (e iv.1)
          { voice := iv.2, text := text, persona_id := pid, model := m } sid).1)) := by
    intro e
    unfold generate_batch
    rw [hm]
  have hidx : ∀ (e : Nat → Env) (i : Nat) (h : i < voices.length),
      (voices.enum.map (fun iv =>
        (generate_speech (e iv.1)
          { voice := iv.2, text := text, persona_id := pid, model := m } sid).1))[i]? =
      some (generate_speech (e i)
        { voice := voices[i], text := text, persona_id := pid, model := m } sid).1 := by
    intro e i h
    rw [List.getElem?_map, List.getElem?_enum]
    rw [List.getElem?_eq_getElem h]
    rfl
  refine ⟨_, hbatch envs, ?_, ?_, ?_⟩
  · rw [List.length_map, List.enum_length]
  · intro i h
    exact hidx envs i h
  · intro envs2 i h he
    refine ⟨_, hbatch envs2, ?_⟩
    rw [hidx envs2 i h, hidx envs i h, he]

def batchEnvs : Nat → Env := fun i => if i = 1 then envAudioWriteFails else envBusyBoss

theorem batch_one_result_per_voice_witness :
    GeminiModel.ofString "gemini-2.5-flash-preview-tts" = some GeminiModel.FLASH ∧
    (∃ rs, generate_batch batchEnvs ["Zephyr", "Zephyr", "Puck"] "Hello" none
        "gemini-2.5-flash-preview-tts" none = .ok rs ∧
      rs.length = (["Zephyr", "Zephyr", "Puck"] : List String).length ∧
      (∀ i (h : i < (["Zephyr", "Zephyr", "Puck"] : List String).length),
        rs[i]? = some (generate_speech (batchEnvs i)
          { voice := (["Zephyr", "Zephyr", "Puck"] : List String)[i], text := "Hello",
            persona_id := none, model := GeminiModel.FLASH } none).1) ∧
      (∀ (envs2 : Nat → Env) i, i < (["Zephyr", "Zephyr", "Puck"] : List String).length →
        envs2 i = batchEnvs i →
        ∃ rs2, generate_batch envs2 ["Zephyr", "Zephyr", "Puck"] "Hello" none
            "gemini-2.5-flash-preview-tts" none = .ok rs2 ∧
          rs2[i]? = rs[i]?)) :=
  ⟨by decide,
   batch_one_result_per_voice batchEnvs ["Zephyr", "Zephyr", "Puck"] "Hello" none
     "gemini-2.5-flash-preview-tts" none GeminiModel.FLASH (by decide)⟩

/-- The sidecar line list always ends with the generated_at line built
from the same timestamp string (tts_service.py lines 204-208). -/
theorem metadataLines_getLast (req : GenerateRequest) (pd : Option Persona)
    (pn ts : String) :
    (metadataLines req pd pn ts).getLast? = some ("generated_at: " ++ ts) := by
  unfold metadataLines
  rw [show ["model: " ++ req.model.value, "text: " ++ req.text, "generated_at: " ++ ts] =
    ["model: " ++ req.model.value, "text: " ++ req.text] ++ ["generated_at: " ++ ts] from rfl]
  rw [← List.append_assoc, List.getLast?_concat]

/-- C10: every successful invocation writes exactly one audio file and
one sidecar under a shared base name whose leading component is the
single timestamp string read from the clock at line 177, and the last
sidecar line is generated_at followed by that very same string, so the
generated_at value of a sidecar always matches the leading timestamp
component of its own filename. -/
theorem sidecar_timestamp_matches_filename (env : Env) (req : GenerateRequest)
    (sid : Option String) (h : (generate_speech env req sid).1.success = true) :
    ∃ w,
      (generate_speech env req sid).2 =
        [(env.timestamp ++ "_" ++ req.voice ++ "_" ++
            replaceSpaces (personaNameFor env.personas req.persona_id) ++ ".wav",
          FileData.audioFile w),
         (env.timestamp ++ "_" ++ req.voice ++ "_" ++
            replaceSpaces (personaNameFor env.personas req.persona_id) ++ ".txt",
          FileData.textFile (String.intercalate "\n"
            (metadataLines req (resolvePersona env.personas req.persona_id)
              (personaNameFor env.personas req.persona_id) env.timestamp)))] ∧
      (metadataLines req (resolvePersona env.personas req.persona_id)
          (personaNameFor env.personas req.persona_id) env.timestamp).getLast? =
        some ("generated_at: " ++ env.timestamp) := by
  cases hrs : runStream env.chunks with
  | error e =>
    rw [generate_speech_error env req sid e hrs] at h
    simp [mkFailure] at h
  | ok pair =>
    obtain ⟨payloads, mime⟩ := pair
    cases payloads with
    | nil =>
      rw [generate_speech_ok_nil env req sid mime hrs] at h
      simp [mkFailure] at h
    | cons p ps =>
      rw [generate_speech_ok_cons env req sid p ps mime hrs] at h ⊢
      cases hcv : convert_to_wav ((p :: ps).flatten) (pyOrStr mime "audio/L16;rate=24000") with
      | none =>
        rw [encodePhase_none env req sid (p :: ps) mime hcv] at h
        simp [mkFailure] at h
      | some wav =>
        rw [encodePhase_some env req sid (p :: ps) mime wav hcv] at h ⊢
        refine ⟨wav, ?_, metadataLines_getLast req _ _ env.timestamp⟩
        unfold writePhase at h ⊢
        cases haw : env.audioWriteError with
        | some e => rw [haw] at h; simp [mkFailure] at h
        | none =>
          rw [haw] at h
          cases hmw : env.metaWriteError with
          | some e => rw [hmw] at h; simp [mkFailure] at h
          | none =>
            rw [hmw] at h
            cases hact : pyOrOpt sid env.activeSessionId with
            | none => rfl
            | some sact =>
              rw [hact] at h
              cases hsa : env.sessionAddError with
              | some e => rw [hsa] at h
              | none => rfl

def envC10 : Env :=
  { chunks := [okAudioChunk], personas := busyBossCatalog,
    timestamp := "2025-03-03_101010" }

def reqC10 : GenerateRequest :=
  { voice := "Puck", text := "Hello", persona_id := some "busy_boss" }

theorem sidecar_timestamp_matches_filename_witness :
    (generate_speech envC10 reqC10 none).1.success = true ∧
    (∃ w,
      (generate_speech envC10 reqC10 none).2 =
        [(envC10.timestamp ++ "_" ++ reqC10.voice ++ "_" ++
            replaceSpaces (personaNameFor envC10.personas reqC10.persona_id) ++ ".wav",
          FileData.audioFile w),
         (envC10.timestamp ++ "_" ++ reqC10.voice ++ "_" ++
            replaceSpaces (personaNameFor envC10.personas reqC10.persona_id) ++ ".txt",
          FileData.textFile (String.intercalate "\n"
            (metadataLines reqC10 (resolvePersona envC10.personas reqC10.persona_id)
              (personaNameFor envC10.personas reqC10.persona_id) envC10.timestamp)))] ∧
      (metadataLines reqC10 (resolvePersona envC10.personas reqC10.persona_id)
          (personaNameFor envC10.personas reqC10.persona_id) envC10.timestamp).getLast? =
        some ("generated_at: " ++ envC10.timestamp)) :=
  ⟨by decide, sidecar_timestamp_matches_filename envC10 reqC10 none (by decide)⟩
